import Mathlib

/-!
Shallow embedding of `src/client/src/core/voice_recorder.py` (class
`VoiceRecorder`, its silence-monitor loop, and the module-level
`get_voice_recorder` singleton accessor).

Modelling conventions:
* Audio samples are rationals (the source uses 32-bit floats only through
  comparisons and RMS; no claim depends on floating-point rounding).
* A frame is a list of samples; the frame buffer `audio_data` is a list of
  frames, most recent last, exactly as the Python list of numpy chunks.
* Byte buffers are lists of naturals.
* Wall-clock reads, thread identity/liveness, stream open/close success and
  the external WAV encoder (`soundfile.sf.write`) are supplied by an `Env`
  record; an operation that in Python would raise at an external call site
  instead takes the corresponding failure branch of the model.
* Each lifecycle operation returns, besides its result and the new state, a
  trace of externally visible actions (thread joins, stream close, feedback
  sounds), so that properties about which joins are performed are statable.
* The silence monitor is modelled per poll tick: `monitorTick` is the body
  of the `while` loop of `_monitor_silence` for one iteration, taking the
  current wall-clock time and the buffer contents observed at that tick;
  `monitorStopTime` folds it over a list of observed ticks and reports the
  tick time at which the loop set `stop_event` and broke out (if any).
  The model covers the self-terminating runs (nobody sets `stop_event`
  externally and `is_recording` stays true), which is what the claims are
  about. The write-only local `last_chunk_time` of the source is omitted.
-/

/-- One captured audio frame: the sample values of one callback chunk. -/
abbrev Frame := List ℚ

/-- An encoded audio byte buffer. -/
abbrev AudioBytes := List ℕ

/-- A thread identity, used only for equality comparison and liveness. -/
abbrev ThreadId := ℕ

/-- Constructor-time configuration of `VoiceRecorder.__init__`. -/
structure VoiceRecorderConfig where
  sample_rate : ℕ
  channels : ℕ
  silence_threshold : ℚ
  silence_duration : ℚ
  max_recording_time : ℚ
  min_recording_time : ℚ
deriving DecidableEq, Repr

/-- The default argument values of `VoiceRecorder.__init__`:
sample_rate 16000, channels 1, silence_threshold 0.001,
silence_duration 2.0, max_recording_time 30.0, min_recording_time 1.0. -/
def defaultConfig : VoiceRecorderConfig :=
  { sample_rate := 16000
    channels := 1
    silence_threshold := 1 / 1000
    silence_duration := 2
    max_recording_time := 30
    min_recording_time := 1 }

/-- The mutable instance fields of a `VoiceRecorder` that the lifecycle
operations read and write.  `recording_start_time` is `none` before the
first `start_recording` (in Python the attribute does not exist yet). -/
structure RecorderState where
  is_recording : Bool
  audio_data : List Frame
  recording_thread : Option ThreadId
  monitoring_thread : Option ThreadId
  stop_event : Bool
  stream : Option ℕ
  recording_start_time : Option ℚ
deriving DecidableEq, Repr

/-- The state `VoiceRecorder.__init__` leaves the instance in. -/
def initialState : RecorderState :=
  { is_recording := false
    audio_data := []
    recording_thread := none
    monitoring_thread := none
    stop_event := false
    stream := none
    recording_start_time := none }

/-- External world supplied to one lifecycle call: clock, identity of the
calling thread, fresh identifiers for a spawned monitor thread and an opened
stream, thread liveness, whether the stream operations succeed, and the
external WAV encoder (`none` models `sf.write`/`np.concatenate` raising). -/
structure Env where
  sd_available : Bool
  now : ℚ
  current_thread : ThreadId
  new_monitor_thread : ThreadId
  new_stream : ℕ
  thread_alive : ThreadId → Bool
  stream_open_ok : Bool
  stream_close_ok : Bool
  encode : List ℚ → Option AudioBytes

/-- Externally visible side effects of a lifecycle call, in order. -/
inductive RecAction where
  | playSound
  | joinThread (tid : ThreadId)
  | closeStream
  | openStream
deriving DecidableEq, Repr

/-- The guarded monitor-thread join of `reset` (source lines 254-262):
join only when the thread reference is set, the thread is alive, and it is
not the calling thread; a join timeout or error is logged and ignored. -/
def resetJoinActs (env : Env) (tid? : Option ThreadId) : List RecAction :=
  match tid? with
  | some tid =>
      if env.thread_alive tid && tid != env.current_thread then
        [RecAction.joinThread tid]
      else []
  | none => []

/-- `VoiceRecorder.reset`: stop an active recording, close the stream
(ignoring close errors), join a live monitoring thread unless it is the
calling thread (join errors ignored), then clear the session fields.
`recording_start_time` is not touched by the source. -/
def reset (env : Env) (s : RecorderState) : RecorderState × List RecAction :=
  let s1 := if s.is_recording then
    { s with is_recording := false, stop_event := true } else s
  let closeActs : List RecAction :=
    if s1.stream.isSome then [RecAction.closeStream] else []
  let s2 := if s1.stream.isSome then { s1 with stream := none } else s1
  let joinActs : List RecAction := resetJoinActs env s2.monitoring_thread
  let s3 := { s2 with
    is_recording := false
    audio_data := []
    recording_thread := none
    monitoring_thread := none
    stop_event := false }
  (s3, closeActs ++ joinActs)

/-- `VoiceRecorder.start_recording`: fail when sounddevice is unavailable or
a recording is already in progress; otherwise play the start cue, join any
surviving monitor thread from a previous session (this cleanup join has no
self-join guard in the source), reset, mark recording started at `env.now`,
open the input stream and spawn the monitor thread.  A stream-open failure
is caught: `is_recording` is rolled back to false and the call fails. -/
def start_recording (env : Env) (s : RecorderState) :
    Bool × RecorderState × List RecAction :=
  if !env.sd_available then (false, s, [])
  else if s.is_recording then (false, s, [])
  else
    let monitorAlive : Bool :=
      match s.monitoring_thread with
      | some tid => env.thread_alive tid
      | none => false
    let cleanupActs : List RecAction :=
      match s.monitoring_thread with
      | some tid => if env.thread_alive tid then [RecAction.joinThread tid] else []
      | none => []
    let s0 := if monitorAlive then { s with stop_event := true } else s
    let r1 := reset env s0
    let s2 := { r1.1 with
      is_recording := true
      recording_start_time := some env.now }
    if env.stream_open_ok then
      (true,
       { s2 with
           stream := some env.new_stream
           monitoring_thread := some env.new_monitor_thread },
       RecAction.playSound :: cleanupActs ++ r1.2 ++ [RecAction.openStream])
    else
      (false, { s2 with is_recording := false },
       RecAction.playSound :: cleanupActs ++ r1.2)

/-- The active-teardown half of `VoiceRecorder.stop_recording` (lines
280-313): when recording, clear `is_recording`, set `stop_event`, stop and
close the stream, play the stop cue, and join the monitoring thread when it
is alive and is not the calling thread, clearing the thread reference.
`Except.error` is the path where `stream.stop()`/`close()` raised and
control jumps to the outer exception handler of `stop_recording`. -/
def stopActive (env : Env) (s : RecorderState) :
    Except (RecorderState × List RecAction) (RecorderState × List RecAction) :=
  if s.is_recording then
    let sA := { s with is_recording := false, stop_event := true }
    match sA.stream with
    | some _ =>
        if env.stream_close_ok then
          stopJoinMonitor env { sA with stream := none } [RecAction.closeStream]
        else
          Except.error (sA, [])
    | none => stopJoinMonitor env sA []
  else Except.ok (s, [])
where
  /-- Stop cue and monitor-thread join of `stop_recording`; join errors are
  caught and the thread reference is cleared in a `finally` whenever the
  join block was entered. -/
  stopJoinMonitor (env : Env) (s : RecorderState) (acts : List RecAction) :
      Except (RecorderState × List RecAction) (RecorderState × List RecAction) :=
    match s.monitoring_thread with
    | some tid =>
        if env.thread_alive tid then
          let jacts : List RecAction :=
            if tid != env.current_thread then [RecAction.joinThread tid] else []
          Except.ok ({ s with monitoring_thread := none },
                     acts ++ RecAction.playSound :: jacts)
        else Except.ok (s, acts ++ [RecAction.playSound])
    | none => Except.ok (s, acts ++ [RecAction.playSound])

/-- `VoiceRecorder.stop_recording`: return `none` when idle with an empty
buffer; otherwise tear down the active session, then concatenate the frames
and encode them to WAV bytes, clearing the frame buffer only after the
encoding succeeded.  Any exception inside the body (stream teardown or
finalization) is caught and the call returns `none`. -/
def stop_recording (env : Env) (s : RecorderState) :
    Option AudioBytes × RecorderState × List RecAction :=
  if !s.is_recording && s.audio_data.isEmpty then (none, s, [])
  else
    match stopActive env s with
    | Except.error (s1, acts) => (none, s1, acts)
    | Except.ok (s1, acts) =>
        if s1.audio_data.isEmpty then (none, s1, acts)
        else
          match env.encode s1.audio_data.flatten with
          | none => (none, s1, acts)
          | some bytes => (some bytes, { s1 with audio_data := [] }, acts)

/-- `VoiceRecorder.is_recording_active`. -/
def is_recording_active (s : RecorderState) : Bool :=
  s.is_recording

/-- Sum of squared sample values of a frame. -/
def sumSq (frame : Frame) : ℚ :=
  (frame.map (fun x => x * x)).sum

/-- The comparison `np.sqrt(np.mean(recent_audio ** 2)) < silence_threshold`
of `_monitor_silence`, expressed without square roots: both sides squared,
together with positivity of the threshold (for a non-positive threshold the
source comparison is false since the RMS value is non-negative).  The
lemma `frameSilent_iff_sqrt` below proves this equal to the source form. -/
def frameSilent (frame : Frame) (threshold : ℚ) : Bool :=
  decide (0 < threshold ∧
    sumSq frame / (frame.length : ℚ) < threshold * threshold)

/-- Outcome of one iteration of the `_monitor_silence` loop body: either the
loop continues (sleeping, with the updated `silence_start` timer) or it sets
`stop_event` and breaks out. -/
inductive TickOutcome where
  | next (silence_start : Option ℚ)
  | stop
deriving DecidableEq, Repr

/-- The silence-evaluation block of `_monitor_silence` (checking the most
recent audio chunk): when the buffer is non-empty and its most recent frame
is non-empty, compare its RMS volume against the threshold and start, check
or reset the `silence_start` timer, with a `break` (`stop_event.set()`)
once the timer has run for `silence_duration`; an absent or empty most
recent frame leaves the timer untouched. -/
def silenceEval (cfg : VoiceRecorderConfig) (silence_start : Option ℚ)
    (t : ℚ) (audio : List Frame) : TickOutcome :=
  match audio.getLast? with
  | none => TickOutcome.next silence_start
  | some recent =>
      if recent.isEmpty then TickOutcome.next silence_start
      else if frameSilent recent cfg.silence_threshold then
        match silence_start with
        | none => TickOutcome.next (some t)
        | some ss =>
            if cfg.silence_duration ≤ t - ss then TickOutcome.stop
            else TickOutcome.next (some ss)
      else TickOutcome.next none

/-- One iteration of the `while` loop of `VoiceRecorder._monitor_silence`,
given the configuration, the session start time, the current value of the
local `silence_start`, the wall-clock time `t` of this iteration, and the
contents of `audio_data` observed at this iteration.  Mirrors the source
order: the minimum-recording-time gate `continue`s (skipping everything,
including the maximum-time check); then the silence evaluation; then the
maximum-recording-time check. -/
def monitorTick (cfg : VoiceRecorderConfig) (startTime : ℚ)
    (silence_start : Option ℚ) (t : ℚ) (audio : List Frame) : TickOutcome :=
  if t - startTime < cfg.min_recording_time then
    TickOutcome.next silence_start
  else
    match silenceEval cfg silence_start t audio with
    | TickOutcome.stop => TickOutcome.stop
    | TickOutcome.next ss1 =>
        if cfg.max_recording_time ≤ t - startTime then TickOutcome.stop
        else TickOutcome.next ss1

/-- Run of the `_monitor_silence` loop over a list of observed poll ticks
(each a wall-clock time paired with the `audio_data` contents seen then),
for a session that is not stopped externally: returns the time of the tick
at which the loop set `stop_event` and exited, or `none` when the loop never
signalled a stop on the given ticks. -/
def monitorStopTime (cfg : VoiceRecorderConfig) (startTime : ℚ) :
    Option ℚ → List (ℚ × List Frame) → Option ℚ
  | _, [] => none
  | ss, (t, audio) :: rest =>
      match monitorTick cfg startTime ss t audio with
      | TickOutcome.stop => some t
      | TickOutcome.next ss1 => monitorStopTime cfg startTime ss1 rest

/-- Holds when the buffer observed at a tick provides no silence evidence:
either there is no frame yet, the most recent frame is empty (the source
skips it), or its RMS energy is at or above the threshold. -/
def noSilenceEvidence (cfg : VoiceRecorderConfig) (audio : List Frame) :
    Bool :=
  match audio.getLast? with
  | none => true
  | some recent =>
      recent.isEmpty || !(frameSilent recent cfg.silence_threshold)

/-- A voice recorder object: its configuration and its mutable state. -/
structure VoiceRecorder where
  config : VoiceRecorderConfig
  state : RecorderState
deriving DecidableEq

/-- `VoiceRecorder(...)`: a freshly constructed recorder. -/
def VoiceRecorder.init (cfg : VoiceRecorderConfig) : VoiceRecorder :=
  { config := cfg, state := initialState }

/-- `get_voice_recorder`, with the module-level `_recorder_instance`
variable passed explicitly: construct a `VoiceRecorder()` with the default
configuration on first call, return the stored instance afterwards. -/
def get_voice_recorder (g : Option VoiceRecorder) :
    VoiceRecorder × Option VoiceRecorder :=
  match g with
  | none =>
      let r := VoiceRecorder.init defaultConfig
      (r, some r)
  | some r => (r, some r)

/-- Configuration of the spec's timing scenario: minRecordingTime 1.0,
silenceThreshold 0.01, silenceDuration 2.0 (other fields default). -/
def c2ScenarioCfg : VoiceRecorderConfig :=
  { defaultConfig with
      silence_threshold := 1 / 100
      silence_duration := 2
      min_recording_time := 1 }

/-- The frame delivered at time `t` in the timing scenario: a sample of
constant amplitude 0.3 (RMS 0.3, sound) before t = 0.5s, a zero sample
(RMS 0, silence) from t = 0.5s on. -/
def c2Frame (t : ℚ) : Frame :=
  if t < 1 / 2 then [3 / 10] else [0]

/-- Poll times of the timing scenario: every 0.1s from t = 0.1 to t = 3.0. -/
def c2Times : List ℚ :=
  [1/10, 2/10, 3/10, 4/10, 5/10, 6/10, 7/10, 8/10, 9/10, 10/10,
   11/10, 12/10, 13/10, 14/10, 15/10, 16/10, 17/10, 18/10, 19/10, 20/10,
   21/10, 22/10, 23/10, 24/10, 25/10, 26/10, 27/10, 28/10, 29/10, 30/10]

/-- Poll ticks of the timing scenario: at each poll time the observed
buffer holds `c2Frame t` as its most recent frame. -/
def c2Ticks : List (ℚ × List Frame) :=
  c2Times.map (fun t => (t, [c2Frame t]))

/-- A configuration whose maximum recording time is smaller than its
minimum recording time: min 2.0s, max 1.0s. -/
def c3Cfg : VoiceRecorderConfig :=
  { defaultConfig with min_recording_time := 2, max_recording_time := 1 }

/-- A concrete environment for a caller-thread stop of a finished session:
every external operation succeeds and the encoder returns the bytes
`[7, 7]` for any sample sequence. -/
def c1Env : Env :=
  { sd_available := true
    now := 0
    current_thread := 0
    new_monitor_thread := 1
    new_stream := 5
    thread_alive := fun _ => false
    stream_open_ok := true
    stream_close_ok := true
    encode := fun _ => some [7, 7] }

/-- A concrete mid-session recorder state: actively recording with one
captured frame and an open stream. -/
def c1State : RecorderState :=
  { is_recording := true
    audio_data := [[1 / 2]]
    recording_thread := none
    monitoring_thread := none
    stop_event := false
    stream := some 5
    recording_start_time := some 0 }

/-- A concrete environment whose encoder always raises. -/
def encodeFailEnv : Env :=
  { c1Env with encode := fun _ => none }

/-- Fidelity of `frameSilent`: the squared comparison equals the source
comparison `sqrt(mean(samples ** 2)) < silence_threshold` over the reals. -/
theorem frameSilent_iff_sqrt (frame : Frame) (threshold : ℚ) :
    frameSilent frame threshold = true ↔
      Real.sqrt ((sumSq frame : ℝ) / (frame.length : ℝ)) < (threshold : ℝ) := by
  unfold frameSilent
  rw [decide_eq_true_eq]
  constructor
  · rintro ⟨hpos, hlt⟩
    have hpos' : (0 : ℝ) < (threshold : ℝ) := by exact_mod_cast hpos
    rw [Real.sqrt_lt' hpos', pow_two]
    have hlt' : ((sumSq frame / (frame.length : ℚ) : ℚ) : ℝ) <
        ((threshold * threshold : ℚ) : ℝ) := by exact_mod_cast hlt
    push_cast at hlt'
    exact hlt'
  · intro h
    have hpos' : (0 : ℝ) < (threshold : ℝ) :=
      lt_of_le_of_lt (Real.sqrt_nonneg _) h
    have hpos : (0 : ℚ) < threshold := by exact_mod_cast hpos'
    refine ⟨hpos, ?_⟩
    rw [Real.sqrt_lt' hpos', pow_two] at h
    have h' : ((sumSq frame / (frame.length : ℚ) : ℚ) : ℝ) <
        ((threshold * threshold : ℚ) : ℝ) := by push_cast; exact h
    exact_mod_cast h'

/-- A stop produced by the silence evaluation comes from a running silence
timer that has reached `silence_duration`. -/
theorem silenceEval_stop (cfg : VoiceRecorderConfig) (ss : Option ℚ)
    (t : ℚ) (audio : List Frame)
    (h : silenceEval cfg ss t audio = TickOutcome.stop) :
    ∃ s, ss = some s ∧ cfg.silence_duration ≤ t - s := by
  cases haud : audio.getLast? with
  | none => simp [silenceEval, haud] at h
  | some recent =>
    simp only [silenceEval, haud] at h
    by_cases h1 : recent.isEmpty
    · rw [if_pos h1] at h; simp at h
    · rw [if_neg h1] at h
      by_cases h2 : frameSilent recent cfg.silence_threshold
      · rw [if_pos h2] at h
        cases ss with
        | none => simp at h
        | some s =>
          by_cases h3 : cfg.silence_duration ≤ t - s
          · exact ⟨s, rfl, h3⟩
          · simp only [if_neg h3] at h; simp at h
      · rw [if_neg h2] at h; simp at h

/-- When the silence evaluation lets the loop continue, the new timer value
is the old one, a cleared timer, or a freshly started timer at the current
time; the last case only happens on a non-empty sub-threshold frame. -/
theorem silenceEval_next (cfg : VoiceRecorderConfig) (ss ss1 : Option ℚ)
    (t : ℚ) (audio : List Frame)
    (h : silenceEval cfg ss t audio = TickOutcome.next ss1) :
    ss1 = ss ∨ ss1 = none ∨
      (ss = none ∧ ss1 = some t ∧ noSilenceEvidence cfg audio = false) := by
  cases haud : audio.getLast? with
  | none =>
    simp only [silenceEval, haud, TickOutcome.next.injEq] at h
    exact Or.inl h.symm
  | some recent =>
    simp only [silenceEval, haud] at h
    by_cases h1 : recent.isEmpty
    · rw [if_pos h1] at h
      simp only [TickOutcome.next.injEq] at h
      exact Or.inl h.symm
    · rw [if_neg h1] at h
      by_cases h2 : frameSilent recent cfg.silence_threshold
      · rw [if_pos h2] at h
        cases ss with
        | none =>
          simp only [TickOutcome.next.injEq] at h
          refine Or.inr (Or.inr ⟨rfl, h.symm, ?_⟩)
          simp [noSilenceEvidence, haud, h1, h2]
        | some s =>
          by_cases h3 : cfg.silence_duration ≤ t - s
          · simp only [if_pos h3] at h
            simp at h
          · simp only [if_neg h3, TickOutcome.next.injEq] at h
            exact Or.inl h.symm
      · rw [if_neg h2] at h
        simp only [TickOutcome.next.injEq] at h
        exact Or.inr (Or.inl h.symm)

/-- An absent or empty most recent frame is skipped by the silence
evaluation: the timer is left untouched and no stop is signalled there. -/
theorem silenceEval_skip (cfg : VoiceRecorderConfig) (ss : Option ℚ)
    (t : ℚ) (audio : List Frame) (h : audio.getLast?.getD [] = []) :
    silenceEval cfg ss t audio = TickOutcome.next ss := by
  cases haud : audio.getLast? with
  | none => simp [silenceEval, haud]
  | some recent =>
    have hrec : recent = [] := by rw [haud] at h; simpa using h
    subst hrec
    simp [silenceEval, haud]

/-- A stop signalled by a monitor tick is either the maximum-recording-time
cutoff or a silence timer, started at some earlier instant, that has
reached `silence_duration`; either way the minimum-time gate had passed. -/
theorem monitorTick_stop_cases (cfg : VoiceRecorderConfig) (startTime : ℚ)
    (ss : Option ℚ) (t : ℚ) (audio : List Frame)
    (h : monitorTick cfg startTime ss t audio = TickOutcome.stop) :
    cfg.max_recording_time ≤ t - startTime ∨
      ∃ s, ss = some s ∧ cfg.min_recording_time ≤ t - startTime ∧
        cfg.silence_duration ≤ t - s := by
  unfold monitorTick at h
  by_cases h0 : t - startTime < cfg.min_recording_time
  · rw [if_pos h0] at h; simp at h
  · rw [if_neg h0] at h
    cases hse : silenceEval cfg ss t audio with
    | stop =>
      obtain ⟨s, hs, hd⟩ := silenceEval_stop cfg ss t audio hse
      exact Or.inr ⟨s, hs, le_of_not_lt h0, hd⟩
    | next ss1 =>
      simp only [hse] at h
      by_cases h2 : cfg.max_recording_time ≤ t - startTime
      · exact Or.inl h2
      · rw [if_neg h2] at h; simp at h

/-- When a monitor tick lets the loop continue, the silence timer either
keeps its value, is cleared, or is freshly started at the tick time; in the
last case the minimum-time gate had passed and the observed buffer showed a
non-empty sub-threshold frame. -/
theorem monitorTick_next_cases (cfg : VoiceRecorderConfig) (startTime : ℚ)
    (ss ss1 : Option ℚ) (t : ℚ) (audio : List Frame)
    (h : monitorTick cfg startTime ss t audio = TickOutcome.next ss1) :
    ss1 = ss ∨ ss1 = none ∨
      (ss = none ∧ ss1 = some t ∧ cfg.min_recording_time ≤ t - startTime ∧
        noSilenceEvidence cfg audio = false) := by
  unfold monitorTick at h
  by_cases h0 : t - startTime < cfg.min_recording_time
  · rw [if_pos h0] at h
    simp only [TickOutcome.next.injEq] at h
    exact Or.inl h.symm
  · rw [if_neg h0] at h
    cases hse : silenceEval cfg ss t audio with
    | stop =>
      simp only [hse] at h
      simp at h
    | next ss2 =>
      simp only [hse] at h
      by_cases h2 : cfg.max_recording_time ≤ t - startTime
      · rw [if_pos h2] at h; simp at h
      · rw [if_neg h2] at h
        simp only [TickOutcome.next.injEq] at h
        subst h
        rcases silenceEval_next cfg ss ss2 t audio hse with h3 | h3 | ⟨h3, h4, h5⟩
        · exact Or.inl h3
        · exact Or.inr (Or.inl h3)
        · exact Or.inr (Or.inr ⟨h3, h4, le_of_not_lt h0, h5⟩)

/-- Lower bound on the silence-driven stop time: as long as the maximum
cutoff is not reached on the observed ticks, every frame observed before
`t0` is loud (or absent or empty), and any running timer started no earlier
than `max t0 (startTime + minRecordingTime)`, a stop can only be signalled
at a tick at least `silenceDuration` past that instant. -/
theorem monitorStopTime_lower_bound (cfg : VoiceRecorderConfig)
    (startTime t0 : ℚ) (ticks : List (ℚ × List Frame)) :
    ∀ ss : Option ℚ,
      (∀ p ∈ ticks, p.1 - startTime < cfg.max_recording_time) →
      (∀ p ∈ ticks, p.1 < t0 → noSilenceEvidence cfg p.2 = true) →
      (∀ s, ss = some s → max t0 (startTime + cfg.min_recording_time) ≤ s) →
      ∀ t, monitorStopTime cfg startTime ss ticks = some t →
        max t0 (startTime + cfg.min_recording_time) + cfg.silence_duration ≤ t := by
  induction ticks with
  | nil =>
    intro ss _ _ _ t h
    simp [monitorStopTime] at h
  | cons p rest ih =>
    obtain ⟨tt, audio⟩ := p
    intro ss hmax hloud hss t h
    simp only [monitorStopTime] at h
    cases htick : monitorTick cfg startTime ss tt audio with
    | stop =>
      simp only [htick, Option.some.injEq] at h
      subst h
      rcases monitorTick_stop_cases cfg startTime ss tt audio htick with
        hm | ⟨s, hs, hmin, hdur⟩
      · exact absurd hm (not_le.mpr (hmax (tt, audio) (List.mem_cons_self _ _)))
      · have hB := hss s hs
        linarith
    | next ss1 =>
      simp only [htick] at h
      refine ih ss1 (fun p hp => hmax p (List.mem_cons_of_mem _ hp))
        (fun p hp => hloud p (List.mem_cons_of_mem _ hp)) ?_ t h
      intro s hs1
      rcases monitorTick_next_cases cfg startTime ss ss1 tt audio htick with
        he | he | ⟨hnone, hsome, hmin, hev⟩
      · exact hss s (he ▸ hs1)
      · rw [he] at hs1; cases hs1
      · rw [hsome, Option.some.injEq] at hs1
        have h5 : ¬ tt < t0 := fun hlt => by
          have h6 := hloud (tt, audio) (List.mem_cons_self _ _) hlt
          rw [h6] at hev
          simp at hev
        have h7 : max t0 (startTime + cfg.min_recording_time) ≤ tt :=
          max_le (not_lt.mp h5) (by linarith)
        exact hs1 ▸ h7

/-- C2: in any session where frames are loud until silence sets in at `t0`
and the maximum cutoff is not reached on the observed ticks, the monitor
signals no stop before `max(minRecordingTime, t0) + silenceDuration` after
start; and in the spec scenario (min 1.0s, silence duration 2.0s, sound
until t = 0.5s then silence, 0.1s polling) the stop fires exactly at the
t = 3.0s tick. -/
theorem silence_autostop_timing :
    (∀ (cfg : VoiceRecorderConfig) (startTime t0 : ℚ)
        (ticks : List (ℚ × List Frame)),
      (∀ p ∈ ticks, p.1 - startTime < cfg.max_recording_time) →
      (∀ p ∈ ticks, p.1 < t0 → noSilenceEvidence cfg p.2 = true) →
      ∀ t, monitorStopTime cfg startTime none ticks = some t →
        max t0 (startTime + cfg.min_recording_time) + cfg.silence_duration ≤ t)
    ∧ monitorStopTime c2ScenarioCfg 0 none c2Ticks = some 3 := by
  constructor
  · intro cfg startTime t0 ticks hmax hloud t h
    exact monitorStopTime_lower_bound cfg startTime t0 ticks none hmax hloud
      (fun s hs => by cases hs) t h
  · norm_num [monitorStopTime, monitorTick, silenceEval, frameSilent, sumSq,
      c2Frame, c2ScenarioCfg, defaultConfig, c2Ticks, c2Times]

/-- Witness for C2: the scenario inputs satisfy the hypotheses, and applying
the theorem to its own scenario conjunct yields the 3.0s lower bound. -/
theorem silence_autostop_timing_witness :
    max (1 / 2 : ℚ) (0 + c2ScenarioCfg.min_recording_time) +
      c2ScenarioCfg.silence_duration ≤ 3 :=
  silence_autostop_timing.1 c2ScenarioCfg 0 (1 / 2) c2Ticks
    (by norm_num [c2Ticks, c2Times, c2ScenarioCfg, defaultConfig])
    (by norm_num [c2Ticks, c2Times, noSilenceEvidence, frameSilent, sumSq,
      c2Frame, c2ScenarioCfg, defaultConfig])
    3 silence_autostop_timing.2

/-- Counterexample to C3: with minRecordingTime 2.0 and maxRecordingTime
1.0, the tick at t = 1.0 has elapsed time at least the maximum, yet the
minimum-duration gate `continue`s without signalling a stop. -/
theorem max_time_check_gated_counterexample :
    c3Cfg.max_recording_time ≤ (1 : ℚ) - 0 ∧
    monitorTick c3Cfg 0 none 1 [] = TickOutcome.next none ∧
    monitorStopTime c3Cfg 0 none [(1, [])] = none := by
  refine ⟨by norm_num [c3Cfg, defaultConfig], ?_, ?_⟩ <;>
    norm_num [monitorStopTime, monitorTick, silenceEval, c3Cfg, defaultConfig]

/-- C3 amended: on a poll tick whose elapsed time has passed the
minimum-recording-time gate, reaching `maxRecordingTime` signals stop and
exits regardless of silence state; ticks still inside the gate skip the
maximum-time check. -/
theorem max_time_stop_after_min_gate :
    ∀ (cfg : VoiceRecorderConfig) (startTime : ℚ) (ss : Option ℚ) (t : ℚ)
      (audio : List Frame),
      cfg.min_recording_time ≤ t - startTime →
      cfg.max_recording_time ≤ t - startTime →
      monitorTick cfg startTime ss t audio = TickOutcome.stop := by
  intro cfg startTime ss t audio h1 h2
  unfold monitorTick
  rw [if_neg (not_lt.mpr h1)]
  cases hse : silenceEval cfg ss t audio with
  | stop => simp only [hse]
  | next ss1 => simp only [hse, if_pos h2]

/-- Witness for the amended C3 at a concrete tick past both bounds. -/
theorem max_time_stop_after_min_gate_witness :
    monitorTick defaultConfig 0 none 31 [] = TickOutcome.stop :=
  max_time_stop_after_min_gate defaultConfig 0 none 31 []
    (by norm_num [defaultConfig]) (by norm_num [defaultConfig])

/-- Counterexample to C4: past the minimum gate and with the default
positive threshold, an empty most-recent frame does not start the silence
timer (the tick returns an unchanged `none` timer, not one started at
t = 2), and with a timer already running for 2.5s at or beyond the 2.0s
silence duration it does not signal stop either. -/
theorem empty_frame_not_silence_counterexample :
    0 < defaultConfig.silence_threshold ∧
    defaultConfig.min_recording_time ≤ (2 : ℚ) - 0 ∧
    monitorTick defaultConfig 0 none 2 [[]] = TickOutcome.next none ∧
    defaultConfig.silence_duration ≤ (5 / 2 : ℚ) - 0 ∧
    monitorTick defaultConfig 0 (some 0) (5 / 2) [[]] =
      TickOutcome.next (some 0) := by
  refine ⟨by norm_num [defaultConfig], by norm_num [defaultConfig], ?_,
    by norm_num [defaultConfig], ?_⟩ <;>
    norm_num [monitorTick, silenceEval, defaultConfig]

/-- C4 amended: on a poll tick past the minimum gate and below the maximum
cutoff, an absent or empty most-recent frame is skipped entirely: the
silence evaluation neither starts, advances, nor resets the timer, and the
tick leaves the timer unchanged without signalling stop. -/
theorem empty_frame_tick_skipped :
    ∀ (cfg : VoiceRecorderConfig) (startTime : ℚ) (ss : Option ℚ) (t : ℚ)
      (audio : List Frame),
      audio.getLast?.getD [] = [] →
      cfg.min_recording_time ≤ t - startTime →
      t - startTime < cfg.max_recording_time →
      monitorTick cfg startTime ss t audio = TickOutcome.next ss := by
  intro cfg startTime ss t audio hemp h1 h2
  unfold monitorTick
  rw [if_neg (not_lt.mpr h1)]
  simp only [silenceEval_skip cfg ss t audio hemp]
  rw [if_neg (not_le.mpr h2)]

/-- Witness for the amended C4 at a concrete tick observing an empty
frame. -/
theorem empty_frame_tick_skipped_witness :
    monitorTick defaultConfig 0 (some 0) 2 [[]] = TickOutcome.next (some 0) :=
  empty_frame_tick_skipped defaultConfig 0 (some 0) 2 [[]] rfl
    (by norm_num [defaultConfig]) (by norm_num [defaultConfig])

/-- The state `reset` leaves behind: everything cleared except the start
timestamp, which the source never clears. -/
theorem reset_state (env : Env) (s : RecorderState) :
    (reset env s).1 =
      { is_recording := false
        audio_data := []
        recording_thread := none
        monitoring_thread := none
        stop_event := false
        stream := none
        recording_start_time := s.recording_start_time } := by
  rcases s with ⟨a, b, c, d, e, f, g⟩
  cases a <;> cases f <;> rfl

/-- The guarded join of `reset` never joins the calling thread. -/
theorem resetJoinActs_no_self (env : Env) (tid? : Option ThreadId) :
    RecAction.joinThread env.current_thread ∉ resetJoinActs env tid? := by
  cases tid? with
  | none => simp [resetJoinActs]
  | some tid =>
    simp only [resetJoinActs]
    split_ifs with hc
    · rw [Bool.and_eq_true, bne_iff_ne] at hc
      simp only [List.mem_singleton, RecAction.joinThread.injEq]
      exact fun hh => hc.2 hh.symm
    · simp

/-- The trace of `reset` never joins the calling thread. -/
theorem reset_no_self_join (env : Env) (s : RecorderState) :
    RecAction.joinThread env.current_thread ∉ (reset env s).2 := by
  rcases s with ⟨a, b, c, d, e, f, g⟩
  have hj := resetJoinActs_no_self env d
  intro hmem
  cases a <;> cases f <;> simp only [reset] at hmem <;> simp at hmem <;>
    simp_all

/-- The stop-cue-and-join step always succeeds (its exceptions are caught
internally): it never transfers control to the outer handler. -/
theorem stopJoinMonitor_ne_error (env : Env) (s : RecorderState)
    (acts : List RecAction) (e : RecorderState × List RecAction) :
    stopActive.stopJoinMonitor env s acts ≠ Except.error e := by
  unfold stopActive.stopJoinMonitor
  cases hd : s.monitoring_thread with
  | none => simp
  | some tid =>
    dsimp only
    by_cases halive : env.thread_alive tid = true
    · rw [if_pos halive]
      by_cases hne : (tid != env.current_thread) = true
      · rw [if_pos hne]; simp
      · rw [if_neg hne]; simp
    · rw [if_neg halive]; simp

/-- The stop-cue-and-join step keeps the active flag and the frame buffer,
and adds no self-join to the trace. -/
theorem stopJoinMonitor_ok (env : Env) (s : RecorderState)
    (acts : List RecAction)
    (hacts : RecAction.joinThread env.current_thread ∉ acts)
    (s1 : RecorderState) (acts1 : List RecAction)
    (h : stopActive.stopJoinMonitor env s acts = Except.ok (s1, acts1)) :
    s1.is_recording = s.is_recording ∧ s1.audio_data = s.audio_data ∧
      RecAction.joinThread env.current_thread ∉ acts1 := by
  unfold stopActive.stopJoinMonitor at h
  cases hd : s.monitoring_thread with
  | none =>
    rw [hd] at h
    dsimp only at h
    simp only [Except.ok.injEq, Prod.mk.injEq] at h
    obtain ⟨h1, h2⟩ := h
    subst h1; subst h2
    refine ⟨rfl, rfl, ?_⟩
    simp [hacts]
  | some tid =>
    rw [hd] at h
    dsimp only at h
    by_cases halive : env.thread_alive tid = true
    · rw [if_pos halive] at h
      by_cases hne : (tid != env.current_thread) = true
      · rw [if_pos hne] at h
        simp only [Except.ok.injEq, Prod.mk.injEq] at h
        obtain ⟨h1, h2⟩ := h
        subst h1; subst h2
        refine ⟨rfl, rfl, ?_⟩
        rw [bne_iff_ne] at hne
        simp only [List.mem_append, List.mem_cons, List.not_mem_nil,
          or_false, RecAction.joinThread.injEq, reduceCtorEq, false_or]
        rintro (hh | hh)
        · exact hacts hh
        · exact hne hh.symm
      · rw [if_neg hne] at h
        simp only [Except.ok.injEq, Prod.mk.injEq] at h
        obtain ⟨h1, h2⟩ := h
        subst h1; subst h2
        refine ⟨rfl, rfl, ?_⟩
        simp [hacts]
    · rw [if_neg halive] at h
      simp only [Except.ok.injEq, Prod.mk.injEq] at h
      obtain ⟨h1, h2⟩ := h
      subst h1; subst h2
      refine ⟨rfl, rfl, ?_⟩
      simp [hacts]

/-- Both exits of the active-teardown step leave the recorder inactive,
keep the frame buffer untouched, and add no self-join to the trace. -/
theorem stopActive_spec (env : Env) (s : RecorderState) (s1 : RecorderState)
    (acts : List RecAction)
    (h : stopActive env s = Except.ok (s1, acts) ∨
         stopActive env s = Except.error (s1, acts)) :
    s1.is_recording = false ∧ s1.audio_data = s.audio_data ∧
      RecAction.joinThread env.current_thread ∉ acts := by
  by_cases hrec : s.is_recording = true
  · have hstr2 :
        ({ s with is_recording := false, stop_event := true } :
          RecorderState).stream = s.stream := rfl
    cases hstr : s.stream with
    | none =>
      rcases h with h | h
      · simp only [stopActive, hrec, if_true, hstr2, hstr] at h
        have := stopJoinMonitor_ok env _ []
          (by simp) s1 acts h
        exact ⟨this.1, this.2.1, this.2.2⟩
      · simp only [stopActive, hrec, if_true, hstr2, hstr] at h
        exact absurd h (stopJoinMonitor_ne_error env _ _ _)
    | some v =>
      by_cases hclose : env.stream_close_ok = true
      · rcases h with h | h
        · simp only [stopActive, hrec, if_true, hstr2, hstr, hclose] at h
          have := stopJoinMonitor_ok env _ [RecAction.closeStream]
            (by simp) s1 acts h
          exact ⟨this.1, this.2.1, this.2.2⟩
        · simp only [stopActive, hrec, if_true, hstr2, hstr, hclose] at h
          exact absurd h (stopJoinMonitor_ne_error env _ _ _)
      · have hclose' : env.stream_close_ok = false := by simpa using hclose
        rcases h with h | h
        · simp only [stopActive, hrec, if_true, hstr2, hstr, hclose',
            Bool.false_eq_true, if_false, reduceCtorEq] at h
        · simp only [stopActive, hrec, if_true, hstr2, hstr, hclose',
            Bool.false_eq_true, if_false, Except.error.injEq,
            Prod.mk.injEq] at h
          obtain ⟨h1, h2⟩ := h
          subst h1; subst h2
          exact ⟨rfl, rfl, by simp⟩
  · rcases h with h | h <;>
      simp only [stopActive, hrec, if_false, Except.ok.injEq,
        Except.error.injEq, Prod.mk.injEq, reduceCtorEq] at h
    obtain ⟨h1, h2⟩ := h
    subst h1; subst h2
    exact ⟨by simpa using hrec, rfl, by simp⟩

/-- All exit paths of `stop_recording` leave the recorder inactive: the
active flag is cleared before any operation that can raise. -/
theorem stop_recording_inactive (env : Env) (s : RecorderState) :
    (stop_recording env s).2.1.is_recording = false := by
  unfold stop_recording
  by_cases h0 : (!s.is_recording && s.audio_data.isEmpty) = true
  · rw [if_pos h0]
    simp only [Bool.and_eq_true, Bool.not_eq_true'] at h0
    exact h0.1
  · rw [if_neg h0]
    cases hsa : stopActive env s with
    | error p =>
      obtain ⟨s1, acts⟩ := p
      simp only [hsa]
      exact (stopActive_spec env s s1 acts (Or.inr hsa)).1
    | ok p =>
      obtain ⟨s1, acts⟩ := p
      have hspec := stopActive_spec env s s1 acts (Or.inl hsa)
      simp only [hsa]
      by_cases h1 : s1.audio_data.isEmpty = true
      · rw [if_pos h1]
        exact hspec.1
      · rw [if_neg h1]
        cases henc : env.encode s1.audio_data.flatten with
        | none => simp only [henc]; exact hspec.1
        | some bytes => simp only [henc]; exact hspec.1

/-- A `stop_recording` call on an idle recorder with an empty frame buffer
returns nothing and changes nothing. -/
theorem stop_recording_idle (env : Env) (s : RecorderState)
    (h1 : s.is_recording = false) (h2 : s.audio_data = []) :
    stop_recording env s = (none, s, []) := by
  unfold stop_recording
  rw [if_pos]
  simp [h1, h2]

/-- When `stop_recording` returns an encoded buffer, it has cleared the
frame buffer. -/
theorem stop_recording_some_clears (env : Env) (s : RecorderState)
    (h : (stop_recording env s).1.isSome = true) :
    (stop_recording env s).2.1.audio_data = [] := by
  unfold stop_recording at h ⊢
  by_cases h0 : (!s.is_recording && s.audio_data.isEmpty) = true
  · rw [if_pos h0] at h ⊢
    simp at h
  · rw [if_neg h0] at h ⊢
    cases hsa : stopActive env s with
    | error p =>
      obtain ⟨s1, acts⟩ := p
      simp only [hsa] at h ⊢
      simp at h
    | ok p =>
      obtain ⟨s1, acts⟩ := p
      simp only [hsa] at h ⊢
      by_cases h1 : s1.audio_data.isEmpty = true
      · rw [if_pos h1] at h ⊢
        simp at h
      · rw [if_neg h1] at h ⊢
        cases henc : env.encode s1.audio_data.flatten with
        | none =>
          simp only [henc] at h ⊢
          simp at h
        | some bytes =>
          simp only [henc] at h ⊢

/-- C5: a `start_recording` call made while a recording is already in
progress returns failure and leaves the whole recorder state unchanged,
performing no external action. -/
theorem start_while_active_fails_unchanged :
    ∀ (env : Env) (s : RecorderState),
      s.is_recording = true →
      start_recording env s = (false, s, []) := by
  intro env s h
  rcases hsd : env.sd_available <;> simp [start_recording, hsd, h]

/-- Witness for C5 at the concrete mid-session state. -/
theorem start_while_active_fails_unchanged_witness :
    start_recording c1Env c1State = (false, c1State, []) :=
  start_while_active_fails_unchanged c1Env c1State rfl

/-- C6: neither `stop_recording` nor `reset` ever joins the thread that is
executing the call: no trace of either operation contains a join of the
calling thread. -/
theorem no_self_join_in_stop_or_reset :
    ∀ (env : Env) (s : RecorderState),
      RecAction.joinThread env.current_thread ∉ (stop_recording env s).2.2 ∧
      RecAction.joinThread env.current_thread ∉ (reset env s).2 := by
  intro env s
  refine ⟨?_, reset_no_self_join env s⟩
  unfold stop_recording
  by_cases h0 : (!s.is_recording && s.audio_data.isEmpty) = true
  · rw [if_pos h0]; simp
  · rw [if_neg h0]
    cases hsa : stopActive env s with
    | error p =>
      obtain ⟨s1, acts⟩ := p
      simp only [hsa]
      exact (stopActive_spec env s s1 acts (Or.inr hsa)).2.2
    | ok p =>
      obtain ⟨s1, acts⟩ := p
      simp only [hsa]
      have hj := (stopActive_spec env s s1 acts (Or.inl hsa)).2.2
      by_cases h1 : s1.audio_data.isEmpty = true
      · rw [if_pos h1]; exact hj
      · rw [if_neg h1]
        cases henc : env.encode s1.audio_data.flatten <;>
          simp only [henc] <;> exact hj

/-- C7: `reset` is idempotent and total: from any state it terminates in an
idle state with every session field and the stop flag cleared, and a second
`reset` (under any environment) leaves that state fixed. -/
theorem reset_idempotent_total :
    ∀ (env env2 : Env) (s : RecorderState),
      is_recording_active (reset env s).1 = false ∧
      (reset env s).1.audio_data = [] ∧
      (reset env s).1.recording_thread = none ∧
      (reset env s).1.monitoring_thread = none ∧
      (reset env s).1.stop_event = false ∧
      (reset env s).1.stream = none ∧
      (reset env2 (reset env s).1).1 = (reset env s).1 := by
  intro env env2 s
  rw [reset_state env s]
  refine ⟨rfl, rfl, rfl, rfl, rfl, rfl, ?_⟩
  rw [reset_state env2]

/-- C8: after every `stop_recording` call, on every exit path (idle early
return, stream-teardown failure, empty recording, encoding failure or
success), the recorder reports inactive. -/
theorem stop_leaves_inactive :
    ∀ (env : Env) (s : RecorderState),
      is_recording_active (stop_recording env s).2.1 = false := by
  intro env s
  exact stop_recording_inactive env s

/-- C9: when the finalization step raises (modelled by the encoder
returning nothing), `stop_recording` returns nothing and leaves the frame
buffer exactly as it was, so a later call can retry finalization. -/
theorem encode_failure_keeps_frames :
    ∀ (env : Env) (s : RecorderState),
      env.encode s.audio_data.flatten = none →
      (stop_recording env s).1 = none ∧
      (stop_recording env s).2.1.audio_data = s.audio_data := by
  intro env s henc
  unfold stop_recording
  by_cases h0 : (!s.is_recording && s.audio_data.isEmpty) = true
  · rw [if_pos h0]; simp
  · rw [if_neg h0]
    cases hsa : stopActive env s with
    | error p =>
      obtain ⟨s1, acts⟩ := p
      simp only [hsa, true_and]
      exact (stopActive_spec env s s1 acts (Or.inr hsa)).2.1
    | ok p =>
      obtain ⟨s1, acts⟩ := p
      have hspec := stopActive_spec env s s1 acts (Or.inl hsa)
      simp only [hsa]
      by_cases h1 : s1.audio_data.isEmpty = true
      · rw [if_pos h1]; exact ⟨rfl, hspec.2.1⟩
      · rw [if_neg h1]
        rw [hspec.2.1, henc]
        exact ⟨rfl, hspec.2.1⟩

/-- Witness for C9: stopping the concrete mid-session state under an
always-failing encoder returns nothing and keeps the captured frame. -/
theorem encode_failure_keeps_frames_witness :
    (stop_recording encodeFailEnv c1State).1 = none ∧
    (stop_recording encodeFailEnv c1State).2.1.audio_data =
      c1State.audio_data :=
  encode_failure_keeps_frames encodeFailEnv c1State rfl

/-- Counterexample to C1: stopping the concrete session succeeds with the
encoded bytes, but an immediate second stop returns nothing rather than
the same bytes: the source caches no previously finalized audio. -/
theorem second_stop_returns_none_counterexample :
    (stop_recording c1Env c1State).1 = some [7, 7] ∧
    (stop_recording c1Env (stop_recording c1Env c1State).2.1).1 = none :=
  ⟨rfl, rfl⟩

/-- C1 amended: after a `stop_recording` call that returned an encoded
buffer, an immediate second call (with no intervening start) returns
nothing and changes nothing, because the first call cleared the frame
buffer and the recorder keeps no cache of the finalized audio. -/
theorem second_stop_after_success_returns_none :
    ∀ (env env2 : Env) (s : RecorderState),
      (stop_recording env s).1.isSome = true →
      stop_recording env2 (stop_recording env s).2.1 =
        (none, (stop_recording env s).2.1, []) := by
  intro env env2 s hsome
  exact stop_recording_idle env2 _ (stop_recording_inactive env s)
    (stop_recording_some_clears env s hsome)

/-- Witness for the amended C1 at the concrete session. -/
theorem second_stop_after_success_returns_none_witness :
    stop_recording c1Env (stop_recording c1Env c1State).2.1 =
      (none, (stop_recording c1Env c1State).2.1, []) :=
  second_stop_after_success_returns_none c1Env c1Env c1State rfl

/-- C10: `get_voice_recorder` is a lazy singleton: the first call
constructs the default-configured recorder and stores it, any call with a
stored instance returns that instance unchanged, and a repeated call
returns exactly what the previous call returned. -/
theorem get_voice_recorder_singleton :
    (get_voice_recorder none).1 = VoiceRecorder.init defaultConfig ∧
    (∀ r : VoiceRecorder, get_voice_recorder (some r) = (r, some r)) ∧
    ∀ g : Option VoiceRecorder,
      get_voice_recorder ((get_voice_recorder g).2) = get_voice_recorder g := by
  refine ⟨rfl, fun r => rfl, fun g => ?_⟩
  cases g <;> rfl
